import Mathlib

/-!
Verification of the go-pixiv client library (`token.go` and the API client
file) against its natural-language specification.  The Go code is shallowly
embedded: HTTP exchanges become a `Request -> Response` oracle passed to each
operation, the injectable clock becomes an explicit `Int` instant
(nanoseconds, mirroring `time.Time`/`time.Duration`), and each operation
returns its result together with the list of HTTP requests it issued and the
updated provider state.
-/

namespace Pixiv

/-- The left-brace character, kept as a named constant. -/
def lbrace : Char := Char.ofNat 123

/-- The right-brace character, kept as a named constant. -/
def rbrace : Char := Char.ofNat 125

/-- Does `s` start with the pattern `p` (character lists)? -/
def startsWithChars : List Char → List Char → Bool
  | [], _ => true
  | _ :: _, [] => false
  | p :: ps, c :: cs => p = c && startsWithChars ps cs

/-- Does `s` contain the pattern `p` as a contiguous run (character lists)? -/
def containsChars (p : List Char) : List Char → Bool
  | [] => p.isEmpty
  | c :: cs => startsWithChars p (c :: cs) || containsChars p cs

/-- Embedding of Go `strings.Contains s sub`. -/
def containsSub (s sub : String) : Bool :=
  containsChars sub.toList s.toList

/-- JSON documents, as decoded by Go `encoding/json` for the payloads this
client exchanges (numbers restricted to integers, which covers every field
of the schemas involved). -/
inductive Json where
  | null
  | bool (b : Bool)
  | num (n : Int)
  | str (s : String)
  | arr (xs : List Json)
  | obj (fields : List (String × Json))

/-- Skip JSON whitespace. -/
def skipWs : List Char → List Char
  | [] => []
  | c :: rest =>
    if c = ' ' || c = '\n' || c = '\t' || c = '\r' then skipWs rest else c :: rest

/-- Parse the body of a JSON string literal (opening quote already consumed),
handling the simple escape sequences. -/
def parseStrAux : List Char → List Char → Option (String × List Char)
  | _, [] => none
  | acc, c :: rest =>
    if c = '"' then some (String.mk acc.reverse, rest)
    else if c = '\\' then
      match rest with
      | [] => none
      | e :: rest2 =>
        let dec : Option Char :=
          if e = '"' then some '"'
          else if e = '\\' then some '\\'
          else if e = '/' then some '/'
          else if e = 'n' then some '\n'
          else if e = 't' then some '\t'
          else if e = 'r' then some '\r'
          else if e = 'b' then some (Char.ofNat 8)
          else if e = 'f' then some (Char.ofNat 12)
          else none
        match dec with
        | none => none
        | some d => parseStrAux (d :: acc) rest2
    else parseStrAux (c :: acc) rest

/-- Accumulate a run of decimal digits. -/
def parseDigits (acc : Nat) : List Char → Nat × List Char
  | [] => (acc, [])
  | c :: rest =>
    if c.isDigit then parseDigits (acc * 10 + (c.toNat - 48)) rest
    else (acc, c :: rest)

mutual

/-- Parse one JSON value (fuel-bounded recursion). -/
def parseVal : Nat → List Char → Option (Json × List Char)
  | 0, _ => none
  | fuel + 1, s =>
    match skipWs s with
    | [] => none
    | c :: rest =>
      if c = 'n' then
        match rest with
        | 'u' :: 'l' :: 'l' :: r => some (.null, r)
        | _ => none
      else if c = 't' then
        match rest with
        | 'r' :: 'u' :: 'e' :: r => some (.bool true, r)
        | _ => none
      else if c = 'f' then
        match rest with
        | 'a' :: 'l' :: 's' :: 'e' :: r => some (.bool false, r)
        | _ => none
      else if c = '"' then
        match parseStrAux [] rest with
        | some (str, r) => some (.str str, r)
        | none => none
      else if c = '[' then
        match skipWs rest with
        | ']' :: r => some (.arr [], r)
        | r => parseArrItems fuel [] r
      else if c = lbrace then
        match skipWs rest with
        | [] => none
        | d :: r =>
          if d = rbrace then some (.obj [], r)
          else parseObjItems fuel [] (d :: r)
      else if c = '-' then
        match rest with
        | [] => none
        | d :: r =>
          if d.isDigit then
            let p := parseDigits (d.toNat - 48) r
            some (.num (-(p.1 : Int)), p.2)
          else none
      else if c.isDigit then
        let p := parseDigits (c.toNat - 48) rest
        some (.num (p.1 : Int), p.2)
      else none
termination_by structural fuel _ => fuel

/-- Parse the items of a JSON array after the opening bracket. -/
def parseArrItems : Nat → List Json → List Char → Option (Json × List Char)
  | 0, _, _ => none
  | fuel + 1, acc, s =>
    match parseVal fuel s with
    | none => none
    | some (v, r) =>
      match skipWs r with
      | [] => none
      | ',' :: r2 => parseArrItems fuel (v :: acc) r2
      | c :: r2 => if c = ']' then some (.arr (v :: acc).reverse, r2) else none
termination_by structural fuel _ _ => fuel

/-- Parse the fields of a JSON object after the opening brace. -/
def parseObjItems : Nat → List (String × Json) → List Char → Option (Json × List Char)
  | 0, _, _ => none
  | fuel + 1, acc, s =>
    match skipWs s with
    | [] => none
    | c :: rest =>
      if c = '"' then
        match parseStrAux [] rest with
        | none => none
        | some (k, r) =>
          match skipWs r with
          | ':' :: r2 =>
            match parseVal fuel r2 with
            | none => none
            | some (v, r3) =>
              match skipWs r3 with
              | [] => none
              | ',' :: r4 => parseObjItems fuel ((k, v) :: acc) r4
              | d :: r4 =>
                if d = rbrace then some (.obj ((k, v) :: acc).reverse, r4) else none
          | _ => none
      else none
termination_by structural fuel _ _ => fuel

end

/-- Parse a complete JSON document, as Go `json.Decoder.Decode` reads one
value from the body. -/
def Json.parse (s : String) : Option Json :=
  match parseVal (2 * s.length + 8) s.toList with
  | some (j, _) => some j
  | none => none

/-- Look a key up in the field list of a JSON object. -/
def jsonLookup : List (String × Json) → String → Option Json
  | [], _ => none
  | (k, v) :: rest, key => if k = key then some v else jsonLookup rest key

/-- Decode a struct field of Go type `string` (missing or null field keeps
the zero value, present field must be a JSON string). -/
def decStringField (o : List (String × Json)) (k : String) : Except String String :=
  match jsonLookup o k with
  | none => .ok ""
  | some .null => .ok ""
  | some (.str s) => .ok s
  | some _ => .error ("cannot unmarshal field " ++ k ++ " into string")

/-- Decode a struct field of Go type `int`. -/
def decIntField (o : List (String × Json)) (k : String) : Except String Int :=
  match jsonLookup o k with
  | none => .ok 0
  | some .null => .ok 0
  | some (.num n) => .ok n
  | some _ => .error ("cannot unmarshal field " ++ k ++ " into int")

/-- Decode a struct field of Go type `bool`. -/
def decBoolField (o : List (String × Json)) (k : String) : Except String Bool :=
  match jsonLookup o k with
  | none => .ok false
  | some .null => .ok false
  | some (.bool b) => .ok b
  | some _ => .error ("cannot unmarshal field " ++ k ++ " into bool")

/-- Decode a struct field holding a nested JSON object (missing or null
field keeps the zero value). -/
def decObjField (o : List (String × Json)) (k : String) :
    Except String (List (String × Json)) :=
  match jsonLookup o k with
  | none => .ok []
  | some .null => .ok []
  | some (.obj fields) => .ok fields
  | some _ => .error ("cannot unmarshal field " ++ k ++ " into object")

namespace resp

/-- Modelled from the spec: the `resp` package of this repository is not
under `src/`; per the spec's external-interface section the auth endpoint's
success body carries `access_token`, `refresh_token` and `expires_in`
(seconds), wrapped in the `response` object that `resp.Token.Response`
maps. -/
structure TokenResponse where
  accessToken : String
  refreshToken : String
  expiresIn : Int
deriving DecidableEq

/-- Modelled from the spec: `resp.Token`, the decoded auth success body. -/
structure Token where
  response : TokenResponse
deriving DecidableEq

/-- Modelled from the spec: `resp.TokenError`, one entry of the auth error
body's `errors` map (a message and a numeric code, as the unit tests
exhibit). -/
structure TokenError where
  message : String
  code : Int
deriving DecidableEq

/-- Modelled from the spec: `resp.TokenErrorBody`, the decoded auth error
body with its `has_error` flag and `errors` map. -/
structure TokenErrorBody where
  hasError : Bool
  errors : List (String × TokenError)
deriving DecidableEq

/-- Modelled from the spec: `resp.APIError`, the error object of a resource
endpoint error body (user-facing message, message, reason, details). -/
structure APIError where
  userMessage : String
  message : String
  reason : String
  userMessageDetails : List (String × Json)

/-- Modelled from the spec: `resp.APIErrorBody`, the decoded resource
endpoint error body, wrapping the `error` object. -/
structure APIErrorBody where
  error : APIError

/-- Decode an auth success body into `resp.Token`, mirroring Go
`encoding/json` semantics on the embedded `Json` documents. -/
def decodeToken (s : String) : Except String Token :=
  match Json.parse s with
  | none => .error "invalid JSON"
  | some .null => .ok { response := { accessToken := "", refreshToken := "", expiresIn := 0 } }
  | some (.obj o) =>
    match decObjField o "response" with
    | .error m => .error m
    | .ok ro =>
      match decStringField ro "access_token" with
      | .error m => .error m
      | .ok a =>
        match decStringField ro "refresh_token" with
        | .error m => .error m
        | .ok r =>
          match decIntField ro "expires_in" with
          | .error m => .error m
          | .ok e => .ok { response := { accessToken := a, refreshToken := r, expiresIn := e } }
  | some _ => .error "cannot unmarshal into Token"

/-- Decode one entry of the auth error body's `errors` map. -/
def decodeTokenError (j : Json) : Except String TokenError :=
  match j with
  | .obj o =>
    match decStringField o "message" with
    | .error m => .error m
    | .ok msg =>
      match decIntField o "code" with
      | .error m => .error m
      | .ok c => .ok { message := msg, code := c }
  | .null => .ok { message := "", code := 0 }
  | _ => .error "cannot unmarshal into TokenError"

/-- Decode the `errors` map of the auth error body, field by field. -/
def decodeTokenErrors : List (String × Json) → Except String (List (String × TokenError))
  | [] => .ok []
  | (k, v) :: rest =>
    match decodeTokenError v with
    | .error m => .error m
    | .ok e =>
      match decodeTokenErrors rest with
      | .error m => .error m
      | .ok es => .ok ((k, e) :: es)

/-- Decode an auth error body into `resp.TokenErrorBody`. -/
def decodeTokenErrorBody (s : String) : Except String TokenErrorBody :=
  match Json.parse s with
  | none => .error "invalid JSON"
  | some .null => .ok { hasError := false, errors := [] }
  | some (.obj o) =>
    match decBoolField o "has_error" with
    | .error m => .error m
    | .ok h =>
      match decObjField o "errors" with
      | .error m => .error m
      | .ok eo =>
        match decodeTokenErrors eo with
        | .error m => .error m
        | .ok es => .ok { hasError := h, errors := es }
  | some _ => .error "cannot unmarshal into TokenErrorBody"

/-- Decode a resource endpoint error body into `resp.APIErrorBody`. -/
def decodeAPIErrorBody (s : String) : Except String APIErrorBody :=
  match Json.parse s with
  | none => .error "invalid JSON"
  | some .null =>
    .ok { error := { userMessage := "", message := "", reason := "", userMessageDetails := [] } }
  | some (.obj o) =>
    match decObjField o "error" with
    | .error m => .error m
    | .ok eo =>
      match decStringField eo "user_message" with
      | .error m => .error m
      | .ok um =>
        match decStringField eo "message" with
        | .error m => .error m
        | .ok msg =>
          match decStringField eo "reason" with
          | .error m => .error m
          | .ok rs =>
            match decObjField eo "user_message_details" with
            | .error m => .error m
            | .ok det =>
              .ok { error := { userMessage := um, message := msg, reason := rs,
                               userMessageDetails := det } }
  | some _ => .error "cannot unmarshal into APIErrorBody"

end resp

/-! ## Query-string encoding (Go `net/url` `Values.Encode`) -/

/-- The UTF-8 bytes of a character, as Go strings are byte sequences. -/
def utf8Bytes (c : Char) : List Nat :=
  let n := c.toNat
  if n < 128 then [n]
  else if n < 2048 then [192 + n / 64, 128 + n % 64]
  else if n < 65536 then [224 + n / 4096, 128 + (n / 64) % 64, 128 + n % 64]
  else [240 + n / 262144, 128 + (n / 4096) % 64, 128 + (n / 64) % 64, 128 + n % 64]

/-- Bytes Go `url.QueryEscape` leaves unescaped (alphanumerics and `-_.~`). -/
def isUnreservedByte (b : Nat) : Bool :=
  (48 ≤ b && b ≤ 57) || (65 ≤ b && b ≤ 90) || (97 ≤ b && b ≤ 122) ||
    b = 45 || b = 46 || b = 95 || b = 126

/-- Uppercase hexadecimal digit. -/
def hexDigit (n : Nat) : Char :=
  if n < 10 then Char.ofNat (48 + n) else Char.ofNat (55 + n)

/-- Escape one byte the way Go `url.QueryEscape` does. -/
def escapeByte (b : Nat) : String :=
  if isUnreservedByte b then String.singleton (Char.ofNat b)
  else if b = 32 then "+"
  else String.mk ['%', hexDigit (b / 16), hexDigit (b % 16)]

/-- Embedding of Go `url.QueryEscape`. -/
def queryEscape (s : String) : String :=
  String.join (s.toList.map (fun c => String.join ((utf8Bytes c).map escapeByte)))

/-- Insert one key/value pair into a key-sorted list (Go byte-wise string
order; all keys in play are ASCII). -/
def insertSorted (x : String × String) : List (String × String) → List (String × String)
  | [] => [x]
  | y :: ys => if compare x.1 y.1 = Ordering.gt then y :: insertSorted x ys else x :: y :: ys

/-- Sort key/value pairs by key, as `url.Values.Encode` sorts its keys. -/
def sortByKey (l : List (String × String)) : List (String × String) :=
  l.foldr insertSorted []

/-- Embedding of Go `url.Values.Encode`: keys sorted, each pair escaped and
joined with `&`. -/
def encodeValues (vs : List (String × String)) : String :=
  String.intercalate "&"
    ((sortByKey vs).map (fun kv => queryEscape kv.1 ++ "=" ++ queryEscape kv.2))

/-! ## HTTP exchange model

An HTTP request, with the form that a POST carries (for the auth endpoint)
or the query string already baked into the URL (for the GET endpoints), and
an HTTP response with the header fields the code inspects. -/

/-- An outbound HTTP request as the code assembles it. -/
structure Request where
  method : String
  url : String
  contentType : String
  form : List (String × String)
  headers : List (String × String)
deriving DecidableEq

/-- An HTTP response as the code inspects it: status code, status text,
`Content-Type` header and raw body. -/
structure Response where
  statusCode : Nat
  status : String
  contentType : String
  body : String
deriving DecidableEq

/-! ## Token provider (token.go) -/

/-- Credential, `token.go` lines 54-59. -/
structure Credential where
  username : String
  password : String
  clientID : String
  clientSecret : String
deriving DecidableEq

/-- The cached token, `token.go` lines 223-228.  `createdOn` is an instant
and `expiresIn` a duration, both in nanoseconds as Go `time` counts. -/
structure token where
  accessToken : String
  refreshToken : String
  createdOn : Int
  expiresIn : Int
deriving DecidableEq

/-- Embedding of `token.expired`, `token.go` lines 230-232: the code returns
`t.createdOn.Add(t.expiresIn).After(now())`, i.e. whether creation plus
validity lies strictly after the current instant. -/
def token.expired (t : token) (nowT : Int) : Bool :=
  decide (t.createdOn + t.expiresIn > nowT)

/-- Embedding of `ErrToken`, `token.go` lines 234-238. -/
structure ErrToken where
  statusCode : Nat
  status : String
  JSON : String
deriving DecidableEq

/-- The `error` values `OauthTokenProvider` methods can return: the typed
`ErrToken`, the `fmt.Errorf` content-type mismatch of `onSuccess`, or a JSON
decode failure. -/
inductive TokenErr where
  | errToken (e : ErrToken)
  | contentTypeMismatch (actual : String)
  | decodeErr (msg : String)
deriving DecidableEq

/-- Embedding of `OauthTokenProvider`, `token.go` lines 35-44 (the `http.Client` and
`log.Logger` fields carry no modelled behaviour; the mutex is the
interleaving model's concern, outside this sequential embedding). -/
structure OauthTokenProvider where
  baseURL : String
  headers : List (String × String)
  credential : Credential
  token : Option token
deriving DecidableEq

/-- The request `OauthTokenProvider.authorize` (lines 112-131) builds:
password-grant POST to `/auth/token`, form-encoded, with the provider's
headers applied by `request` (line 177-183). -/
def authRequest (p : OauthTokenProvider) : Request :=
  { method := "POST"
    url := p.baseURL ++ "/auth/token"
    contentType := "application/x-www-form-urlencoded"
    form := [("username", p.credential.username),
             ("password", p.credential.password),
             ("client_id", p.credential.clientID),
             ("client_secret", p.credential.clientSecret),
             ("grant_type", "password"),
             ("get_secure_url", "true")]
    headers := p.headers }

/-- The request `OauthTokenProvider.refresh` (lines 145-162) builds:
refresh-grant POST to `/auth/token` carrying the stored refresh token. -/
def refreshRequest (p : OauthTokenProvider) (t : Pixiv.token) : Request :=
  { method := "POST"
    url := p.baseURL ++ "/auth/token"
    contentType := "application/x-www-form-urlencoded"
    form := [("refresh_token", t.refreshToken),
             ("client_id", p.credential.clientID),
             ("client_secret", p.credential.clientSecret),
             ("grant_type", "refresh_token"),
             ("get_secure_url", "true")]
    headers := p.headers }

/-- Embedding of `OauthTokenProvider.onFailure`, `token.go` lines 206-221: an `ErrToken`
with the response's status code and status text, holding the raw body only
when the `Content-Type` header contains `application/json`. -/
def OauthTokenProvider.onFailure (res : Response) : ErrToken :=
  { statusCode := res.statusCode
    status := res.status
    JSON := if containsSub res.contentType "application/json" then res.body else "" }

/-- Embedding of `OauthTokenProvider.onSuccess`, `token.go` lines 185-204: requires a
JSON content type, decodes the body, and produces the new cached token
stamped with the current clock reading (`expires_in` seconds scaled to
nanoseconds by `time.Duration(..) * time.Second`). -/
def OauthTokenProvider.onSuccess (nowT : Int) (res : Response) : Except TokenErr Pixiv.token :=
  if containsSub res.contentType "application/json" = false then
    .error (.contentTypeMismatch res.contentType)
  else
    match resp.decodeToken res.body with
    | .error m => .error (.decodeErr m)
    | .ok r =>
      .ok { accessToken := r.response.accessToken
            refreshToken := r.response.refreshToken
            createdOn := nowT
            expiresIn := r.response.expiresIn * 1000000000 }

/-- Embedding of `OauthTokenProvider.authorize`, `token.go` lines 112-143: send the
password-grant request; non-2xx goes to `onFailure`, otherwise `onSuccess`.
Returns the produced token and the requests issued. -/
def OauthTokenProvider.authorize (p : OauthTokenProvider) (nowT : Int)
    (respond : Request → Response) : Except TokenErr Pixiv.token × List Request :=
  let req := authRequest p
  let res := respond req
  if ¬ (200 ≤ res.statusCode ∧ res.statusCode ≤ 299) then
    (.error (.errToken (OauthTokenProvider.onFailure res)), [req])
  else
    (OauthTokenProvider.onSuccess nowT res, [req])

/-- Embedding of `OauthTokenProvider.refresh`, `token.go` lines 145-175: send the
refresh-grant request built from the stored token; same classification. -/
def OauthTokenProvider.refresh (p : OauthTokenProvider) (t : Pixiv.token) (nowT : Int)
    (respond : Request → Response) : Except TokenErr Pixiv.token × List Request :=
  let req := refreshRequest p t
  let res := respond req
  if ¬ (200 ≤ res.statusCode ∧ res.statusCode ≤ 299) then
    (.error (.errToken (OauthTokenProvider.onFailure res)), [req])
  else
    (OauthTokenProvider.onSuccess nowT res, [req])

/-- Embedding of `OauthTokenProvider.Token`, `token.go` lines 91-110: under the mutex,
authorize when no token exists, refresh when `expired()` reports true,
otherwise return the cached access token.  The embedding threads the
provider state and the list of HTTP requests issued. -/
def OauthTokenProvider.Token (p : OauthTokenProvider) (nowT : Int)
    (respond : Request → Response) :
    Except TokenErr String × OauthTokenProvider × List Request :=
  match p.token with
  | none =>
    match p.authorize nowT respond with
    | (.error e, reqs) => (.error e, p, reqs)
    | (.ok t, reqs) => (.ok t.accessToken, { p with token := some t }, reqs)
  | some t =>
    if t.expired nowT then
      match p.refresh t nowT respond with
      | (.error e, reqs) => (.error e, p, reqs)
      | (.ok t2, reqs) => (.ok t2.accessToken, { p with token := some t2 }, reqs)
    else
      (.ok t.accessToken, p, [])

/-- Embedding of `ErrToken.TokenErrorBody`, `token.go` lines 244-256: Go returns the
(possibly zero) decoded body together with an error value, modelled as a
pair whose second component is the error when present. -/
def ErrToken.TokenErrorBody (e : ErrToken) : resp.TokenErrorBody × Option String :=
  if e.JSON.length = 0 then ({ hasError := false, errors := [] }, some "no JSON contents")
  else
    match resp.decodeTokenErrorBody e.JSON with
    | .error m => ({ hasError := false, errors := [] }, some m)
    | .ok r => (r, none)

/-! ## API client (the ranking/detail endpoint file) -/

/-- Embedding of `ErrInvalidParam`: one field-level validation error. -/
structure ErrInvalidParam where
  field : String
  message : String
deriving DecidableEq

/-- Embedding of `ErrAPI`: the typed error for non-200 resource endpoint responses. -/
structure ErrAPI where
  statusCode : Nat
  status : String
  JSON : String
deriving DecidableEq

/-- Embedding of `ErrAPI.Decode`: Go returns the (possibly zero) decoded body together
with an error value, modelled as a pair whose second component is the error
when present. -/
def ErrAPI.Decode (e : ErrAPI) : resp.APIErrorBody × Option String :=
  let zero : resp.APIErrorBody :=
    { error := { userMessage := "", message := "", reason := "", userMessageDetails := [] } }
  if e.JSON.length = 0 then (zero, some "no JSON contents")
  else
    match resp.decodeAPIErrorBody e.JSON with
    | .error m => (zero, some m)
    | .ok r => (r, none)

/-- The `error` values `Client` endpoint methods can return: validation
errors, a failure propagated from the token provider, the typed `ErrAPI`,
the content-type mismatch `fmt.Errorf`, or a JSON decode failure. -/
inductive APIErr where
  | invalidParams (errs : List ErrInvalidParam)
  | tokenFailed (e : TokenErr)
  | errAPI (e : ErrAPI)
  | contentTypeMismatch (actual : String)
  | decodeErr (msg : String)
deriving DecidableEq

/-- A calendar date, the part of Go `time.Time` the `Date` option uses
(formatted with layout `2006-01-02`). -/
structure Date where
  year : Nat
  month : Nat
  day : Nat
deriving DecidableEq

/-- Zero-pad a number to two digits. -/
def pad2 (n : Nat) : String :=
  if n < 10 then "0" ++ toString n else toString n

/-- Zero-pad a number to four digits. -/
def pad4 (n : Nat) : String :=
  if n < 10 then "000" ++ toString n
  else if n < 100 then "00" ++ toString n
  else if n < 1000 then "0" ++ toString n
  else toString n

/-- Go `time.Time.Format("2006-01-02")`. -/
def formatDate (d : Date) : String :=
  pad4 d.year ++ "-" ++ pad2 d.month ++ "-" ++ pad2 d.day

/-- Embedding of `GetIllustRankingParams`: nullable pointers become `Option`s. -/
structure GetIllustRankingParams where
  mode : Option String
  date : Option Date
  offset : Option Int
  filter : Option String
deriving DecidableEq

/-- Embedding of `GetIllustRankingParams.validate`: accumulates field errors (only
`Mode` is required) and fails when any were recorded. -/
def GetIllustRankingParams.validate (p : GetIllustRankingParams) :
    Option (List ErrInvalidParam) :=
  let errs : List ErrInvalidParam :=
    if p.mode.isNone then [{ field := "Mode", message := "missing required field" }] else []
  if errs.length > 0 then some errs else none

/-- The `url.Values` that `GetIllustRankingParams.buildQuery` sets: mode
always, date and offset only when present, filter defaulting to
`for_android`. -/
def GetIllustRankingParams.formValues (p : GetIllustRankingParams) :
    List (String × String) :=
  let v := [("mode", p.mode.getD "")]
  let v := match p.date with
    | some d => v ++ [("date", formatDate d)]
    | none => v
  let v := match p.offset with
    | some o => v ++ [("offset", toString o)]
    | none => v
  match p.filter with
  | some f => v ++ [("filter", f)]
  | none => v ++ [("filter", "for_android")]

/-- Embedding of `GetIllustRankingParams.buildQuery`: the `Encode` of the values above. -/
def GetIllustRankingParams.buildQuery (p : GetIllustRankingParams) : String :=
  encodeValues p.formValues

/-- Embedding of `GetIllustDetailParams`. -/
structure GetIllustDetailParams where
  illustID : Option Int
deriving DecidableEq

/-- Embedding of `GetIllustDetailParams.validate`: `IllustID` is required. -/
def GetIllustDetailParams.validate (p : GetIllustDetailParams) :
    Option (List ErrInvalidParam) :=
  let errs : List ErrInvalidParam :=
    if p.illustID.isNone then [{ field := "IllustID", message := "missing required field" }] else []
  if errs.length > 0 then some errs else none

/-- Embedding of `GetIllustDetailParams.buildQuery`. -/
def GetIllustDetailParams.buildQuery (p : GetIllustDetailParams) : String :=
  encodeValues [("illust_id", toString (p.illustID.getD 0))]

/-- Embedding of `Client`: the token provider appears through its interface, as the
result its `Token()` call yields (the unit tests drive it with a constant
mock in exactly this shape). -/
structure Client where
  tokenResult : Except TokenErr String
  baseURL : String
  headers : List (String × String)

/-- The headers `Client.Do` applies before dispatch: the bearer token from
the provider, then the client's fixed headers. -/
def Client.sentRequest (c : Client) (tok : String) (req : Request) : Request :=
  { req with headers := ("Authorization", "Bearer " ++ tok) :: c.headers }

/-- Embedding of `Client.onFailure`: an `ErrAPI` with the response's status code and
status text, holding the raw body only when the `Content-Type` header
contains `application/json`. -/
def Client.onFailure (res : Response) : ErrAPI :=
  { statusCode := res.statusCode
    status := res.status
    JSON := if containsSub res.contentType "application/json" then res.body else "" }

/-- The response classification every resource endpoint performs, in source
order: non-200 goes to `onFailure`, then the content type must contain
`application/json`, then the body is JSON-decoded. -/
def Client.classify (res : Response) : Except APIErr Json :=
  if res.statusCode ≠ 200 then .error (.errAPI (Client.onFailure res))
  else if containsSub res.contentType "application/json" = false then
    .error (.contentTypeMismatch res.contentType)
  else
    match Json.parse res.body with
    | none => .error (.decodeErr "json decode failure")
    | some j => .ok j

/-- Embedding of `Client.GetIllustRanking`: validate, build the GET request, consult the
token provider through `Do`, dispatch, classify.  The result carries the
requests issued and whether the token provider was consulted. -/
def Client.GetIllustRanking (c : Client) (params : GetIllustRankingParams)
    (respond : Request → Response) : Except APIErr Json × List Request × Bool :=
  match params.validate with
  | some errs => (.error (.invalidParams errs), [], false)
  | none =>
    let req : Request :=
      { method := "GET", url := c.baseURL ++ "/v1/illust/ranking?" ++ params.buildQuery,
        contentType := "", form := [], headers := [] }
    match c.tokenResult with
    | .error e => (.error (.tokenFailed e), [], true)
    | .ok tok =>
      let sent := c.sentRequest tok req
      (Client.classify (respond sent), [sent], true)

/-- Embedding of `Client.GetIllustRankingNext`: fetch a server-supplied absolute URL,
with no parameter validation. -/
def Client.GetIllustRankingNext (c : Client) (nextURL : String)
    (respond : Request → Response) : Except APIErr Json × List Request × Bool :=
  let req : Request :=
    { method := "GET", url := nextURL, contentType := "", form := [], headers := [] }
  match c.tokenResult with
  | .error e => (.error (.tokenFailed e), [], true)
  | .ok tok =>
    let sent := c.sentRequest tok req
    (Client.classify (respond sent), [sent], true)

/-- Embedding of `Client.GetIllustDetail`: validate, build the GET request, dispatch,
classify. -/
def Client.GetIllustDetail (c : Client) (params : GetIllustDetailParams)
    (respond : Request → Response) : Except APIErr Json × List Request × Bool :=
  match params.validate with
  | some errs => (.error (.invalidParams errs), [], false)
  | none =>
    let req : Request :=
      { method := "GET", url := c.baseURL ++ "/v1/illust/detail?" ++ params.buildQuery,
        contentType := "", form := [], headers := [] }
    match c.tokenResult with
    | .error e => (.error (.tokenFailed e), [], true)
    | .ok tok =>
      let sent := c.sentRequest tok req
      (Client.classify (respond sent), [sent], true)

/-! ## Concrete fixtures -/

/-- The credential the unit tests configure. -/
def credFix : Credential :=
  { username := "USERNAME", password := "PASSWORD",
    clientID := "CLIENT_ID", clientSecret := "CLIENT_SECRET" }

/-- A cached token created at instant 0 with one hour of validity. -/
def staleTok : token :=
  { accessToken := "OLDACC", refreshToken := "OLDREF",
    createdOn := 0, expiresIn := 3600000000000 }

/-- A provider holding `staleTok`. -/
def provStale : OauthTokenProvider :=
  { baseURL := "https://oauth.example", headers := [], credential := credFix,
    token := some staleTok }

/-- A freshly constructed provider (no token ever obtained). -/
def provFresh : OauthTokenProvider :=
  { baseURL := "https://oauth.example", headers := [], credential := credFix,
    token := none }

/-- A successful auth response body in the documented shape. -/
def freshTokenBody : String :=
  "\x7b\"response\":\x7b\"access_token\":\"NEWACC\",\"refresh_token\":\"NEWREF\",\"expires_in\":3600\x7d\x7d"

/-- An auth endpoint that always grants `freshTokenBody`. -/
def authOK : Request → Response := fun _ =>
  { statusCode := 200, status := "200 OK", contentType := "application/json",
    body := freshTokenBody }

/-- The auth error body of the bad-request unit test, in miniature. -/
def tokenErrBodyFix : String :=
  "\x7b\"has_error\":true,\"errors\":\x7b\"system\":\x7b\"message\":\"bad credentials\",\"code\":1508\x7d\x7d\x7d"

/-- A 400 JSON response from the auth endpoint. -/
def res400 : Response :=
  { statusCode := 400, status := "400 Bad Request",
    contentType := "application/json", body := tokenErrBodyFix }

/-- An auth endpoint that always rejects with `res400`. -/
def auth400 : Request → Response := fun _ => res400

/-- The resource endpoint error body of the not-found unit test fixture. -/
def apiErrBodyFix : String :=
  "\x7b\"error\":\x7b\"user_message\":\"指定されたエンドポイントは存在しません\",\"message\":\"\",\"reason\":\"\",\"user_message_details\":\x7b\x7d\x7d\x7d"

/-- A 404 JSON response from a resource endpoint. -/
def res404 : Response :=
  { statusCode := 404, status := "404 Not Found",
    contentType := "application/json", body := apiErrBodyFix }

/-- The `ErrAPI` that a 404 JSON response with the fixture body carries. -/
def err404fix : ErrAPI :=
  { statusCode := 404, status := "404 Not Found", JSON := apiErrBodyFix }

/-- A client whose token provider succeeds with a constant bearer token. -/
def clientFix : Client :=
  { tokenResult := .ok "TOK", baseURL := "https://api.example", headers := [] }

/-- Ranking parameters with only the required mode set. -/
def dayParams : GetIllustRankingParams :=
  { mode := some "day", date := none, offset := none, filter := none }

/-- Detail parameters with the required illustration id set. -/
def detailParams : GetIllustDetailParams := { illustID := some 62397682 }

/-! ## Claims -/

/-- C1: the claim says a `Token()` call on an expired cached token (current
time at or after creation plus validity) performs exactly one refresh-grant
request and returns the new access token.  The code's `expired()` predicate
is inverted (`createdOn.Add(expiresIn).After(now())` is true while the token
is still valid), so at an instant one hour past expiry `Token()` issues no
request at all and returns the stale access token: the code contradicts the
claim. -/
theorem C1_expired_token_not_refreshed :
    staleTok.createdOn + staleTok.expiresIn ≤ 7200000000000 ∧
    provStale.Token 7200000000000 authOK = (.ok "OLDACC", provStale, []) :=
  ⟨by decide, rfl⟩

/-- C2: the claim says a `Token()` call on a still-valid cached token
(current time strictly before creation plus validity) returns the cached
access token and issues no HTTP request.  Because `expired()` is inverted,
at the half-way instant the code instead issues one refresh-grant request
and replaces the cached token with the newly granted one. -/
theorem C2_unexpired_token_refreshed :
    (1800000000000 : Int) < staleTok.createdOn + staleTok.expiresIn ∧
    provStale.Token 1800000000000 authOK =
      (.ok "NEWACC",
       { provStale with token := some { accessToken := "NEWACC", refreshToken := "NEWREF",
                                        createdOn := 1800000000000,
                                        expiresIn := 3600000000000 } },
       [refreshRequest provStale staleTok]) ∧
    (refreshRequest provStale staleTok).form =
      [("refresh_token", "OLDREF"), ("client_id", "CLIENT_ID"),
       ("client_secret", "CLIENT_SECRET"), ("grant_type", "refresh_token"),
       ("get_secure_url", "true")] :=
  ⟨by decide, rfl, rfl⟩

/-- C6: ranking parameters with mode `day` and nothing else produce the
form `mode=day, filter=for_android` — the filter defaults to `for_android`
and date and offset are omitted from the query. -/
theorem C6_ranking_query_defaults :
    dayParams.formValues = [("mode", "day"), ("filter", "for_android")] ∧
    dayParams.buildQuery = "filter=for_android&mode=day" :=
  ⟨rfl, rfl⟩

/-- C10: with an empty stored JSON string, `ErrToken.TokenErrorBody` and
`ErrAPI.Decode` return the error "no JSON contents" together with the
zero-value body instead of silently succeeding. -/
theorem C10_empty_json_decode_error (e1 : ErrToken) (e2 : ErrAPI)
    (h1 : e1.JSON = "") (h2 : e2.JSON = "") :
    e1.TokenErrorBody = ({ hasError := false, errors := [] }, some "no JSON contents") ∧
    e2.Decode = ({ error := { userMessage := "", message := "", reason := "",
                              userMessageDetails := [] } }, some "no JSON contents") := by
  constructor
  · simp [ErrToken.TokenErrorBody, h1]
  · simp [ErrAPI.Decode, h2]

/-- C3: whenever the auth endpoint answers an authorization attempt (no
cached token) or a refresh attempt (cached token that the code's `expired()`
reports as expired) with a non-2xx status, `Token()` returns an `ErrToken`
carrying the status code, the status text, and the raw body exactly when the
`Content-Type` contains `application/json`; the provider's token field is
unchanged and exactly one request was issued on that attempt. -/
theorem C3_token_failure_preserves_state
    (p : OauthTokenProvider) (nowT : Int) (respond : Request → Response)
    (res : Response) (hres : ¬ (200 ≤ res.statusCode ∧ res.statusCode ≤ 299)) :
    (p.token = none → respond (authRequest p) = res →
      p.Token nowT respond =
        (.error (.errToken { statusCode := res.statusCode, status := res.status,
                             JSON := if containsSub res.contentType "application/json" then
                               res.body else "" }),
         p, [authRequest p])) ∧
    (∀ t, p.token = some t → t.expired nowT = true → respond (refreshRequest p t) = res →
      p.Token nowT respond =
        (.error (.errToken { statusCode := res.statusCode, status := res.status,
                             JSON := if containsSub res.contentType "application/json" then
                               res.body else "" }),
         p, [refreshRequest p t])) := by
  constructor
  · intro h0 hr
    simp only [OauthTokenProvider.Token, h0, OauthTokenProvider.authorize, hr,
      if_pos hres, OauthTokenProvider.onFailure]
  · intro t ht hexp hr
    simp only [OauthTokenProvider.Token, ht, hexp, if_pos, OauthTokenProvider.refresh, hr,
      OauthTokenProvider.onFailure]
    simp [hres]

/-- Witness for C3: a fresh provider meeting a 400 JSON response keeps its
(absent) token and surfaces the typed error with the raw body. -/
theorem C3_token_failure_preserves_state_witness :
    provFresh.Token 0 auth400 =
      (.error (.errToken { statusCode := res400.statusCode, status := res400.status,
                           JSON := if containsSub res400.contentType "application/json" then
                             res400.body else "" }),
       provFresh, [authRequest provFresh]) :=
  (C3_token_failure_preserves_state provFresh 0 auth400 res400 (by decide)).1 rfl rfl

/-- C4: with the required field unset, `GetIllustRanking` and
`GetIllustDetail` fail validation naming the missing field, issue no HTTP
request, and never consult the token provider. -/
theorem C4_validate_before_network
    (c : Client) (respond : Request → Response)
    (pr : GetIllustRankingParams) (pd : GetIllustDetailParams)
    (hr : pr.mode = none) (hd : pd.illustID = none) :
    c.GetIllustRanking pr respond =
      (.error (.invalidParams [{ field := "Mode", message := "missing required field" }]),
       [], false) ∧
    c.GetIllustDetail pd respond =
      (.error (.invalidParams [{ field := "IllustID", message := "missing required field" }]),
       [], false) := by
  constructor
  · simp [Client.GetIllustRanking, GetIllustRankingParams.validate, hr]
  · simp [Client.GetIllustDetail, GetIllustDetailParams.validate, hd]

/-- Witness for C4 at fully-unset parameter records. -/
theorem C4_validate_before_network_witness :
    clientFix.GetIllustRanking { mode := none, date := none, offset := none, filter := none }
        (fun _ => res404) =
      (.error (.invalidParams [{ field := "Mode", message := "missing required field" }]),
       [], false) ∧
    clientFix.GetIllustDetail { illustID := none } (fun _ => res404) =
      (.error (.invalidParams [{ field := "IllustID", message := "missing required field" }]),
       [], false) :=
  C4_validate_before_network clientFix (fun _ => res404)
    { mode := none, date := none, offset := none, filter := none } { illustID := none } rfl rfl

/-- C5: a fresh provider's first `Token()` call issues exactly one
password-grant POST to `/auth/token` with the documented form fields; on a
2xx JSON response whose body decodes, it stores a token stamped with the
current clock reading (validity scaled from seconds) and returns the decoded
access token. -/
theorem C5_first_token_password_grant
    (p : OauthTokenProvider) (nowT : Int) (respond : Request → Response)
    (res : Response) (a r : String) (e : Int)
    (h0 : p.token = none)
    (hres : respond (authRequest p) = res)
    (h2xx : 200 ≤ res.statusCode ∧ res.statusCode ≤ 299)
    (hct : containsSub res.contentType "application/json" = true)
    (hdec : resp.decodeToken res.body =
      .ok { response := { accessToken := a, refreshToken := r, expiresIn := e } }) :
    p.Token nowT respond =
      (.ok a,
       { p with token := some { accessToken := a, refreshToken := r,
                                createdOn := nowT, expiresIn := e * 1000000000 } },
       [authRequest p]) ∧
    (authRequest p).method = "POST" ∧
    (authRequest p).url = p.baseURL ++ "/auth/token" ∧
    (authRequest p).form =
      [("username", p.credential.username), ("password", p.credential.password),
       ("client_id", p.credential.clientID), ("client_secret", p.credential.clientSecret),
       ("grant_type", "password"), ("get_secure_url", "true")] := by
  refine ⟨?_, rfl, rfl, rfl⟩
  simp only [OauthTokenProvider.Token, h0, OauthTokenProvider.authorize, hres,
    OauthTokenProvider.onSuccess, hct, hdec]
  simp [h2xx]

/-- Witness for C5: the fresh provider against the granting endpoint. -/
theorem C5_first_token_password_grant_witness :
    provFresh.Token 42 authOK =
      (.ok "NEWACC",
       { provFresh with token := some { accessToken := "NEWACC", refreshToken := "NEWREF",
                                        createdOn := 42, expiresIn := 3600000000000 } },
       [authRequest provFresh]) ∧
    (authRequest provFresh).form =
      [("username", "USERNAME"), ("password", "PASSWORD"),
       ("client_id", "CLIENT_ID"), ("client_secret", "CLIENT_SECRET"),
       ("grant_type", "password"), ("get_secure_url", "true")] := by
  have h := C5_first_token_password_grant provFresh 42 authOK
    { statusCode := 200, status := "200 OK", contentType := "application/json",
      body := freshTokenBody }
    "NEWACC" "NEWREF" 3600 rfl rfl (by decide) rfl rfl
  exact ⟨h.1, h.2.2.2⟩

/-- C7: when a resource endpoint answers `GetIllustRanking`,
`GetIllustRankingNext` or `GetIllustDetail` with a status other than 200,
the client returns an `ErrAPI` carrying the status code, the status text,
and the raw body exactly when the `Content-Type` contains
`application/json`; and a 404 JSON response in the fixture's shape decodes
to the fixture's user-facing message exactly. -/
theorem C7_api_error_on_non200
    (c : Client) (tok : String) (respond : Request → Response)
    (pr : GetIllustRankingParams) (m : String) (nextURL : String)
    (pd : GetIllustDetailParams) (i : Int)
    (res1 res2 res3 : Response)
    (htok : c.tokenResult = .ok tok)
    (hm : pr.mode = some m)
    (hi : pd.illustID = some i)
    (h1 : respond (c.sentRequest tok
      { method := "GET", url := c.baseURL ++ "/v1/illust/ranking?" ++ pr.buildQuery,
        contentType := "", form := [], headers := [] }) = res1)
    (h2 : respond (c.sentRequest tok
      { method := "GET", url := nextURL,
        contentType := "", form := [], headers := [] }) = res2)
    (h3 : respond (c.sentRequest tok
      { method := "GET", url := c.baseURL ++ "/v1/illust/detail?" ++ pd.buildQuery,
        contentType := "", form := [], headers := [] }) = res3)
    (s1 : res1.statusCode ≠ 200) (s2 : res2.statusCode ≠ 200) (s3 : res3.statusCode ≠ 200) :
    (c.GetIllustRanking pr respond).1 =
      .error (.errAPI { statusCode := res1.statusCode, status := res1.status,
                        JSON := if containsSub res1.contentType "application/json" then
                          res1.body else "" }) ∧
    (c.GetIllustRankingNext nextURL respond).1 =
      .error (.errAPI { statusCode := res2.statusCode, status := res2.status,
                        JSON := if containsSub res2.contentType "application/json" then
                          res2.body else "" }) ∧
    (c.GetIllustDetail pd respond).1 =
      .error (.errAPI { statusCode := res3.statusCode, status := res3.status,
                        JSON := if containsSub res3.contentType "application/json" then
                          res3.body else "" }) ∧
    ((ErrAPI.Decode err404fix).1).error.userMessage =
      "指定されたエンドポイントは存在しません" ∧
    (ErrAPI.Decode err404fix).2 = none := by
  refine ⟨?_, ?_, ?_, rfl, rfl⟩
  · simp only [Client.GetIllustRanking, GetIllustRankingParams.validate, hm, htok, h1,
      Client.classify, Client.onFailure]
    simp [s1]
  · simp only [Client.GetIllustRankingNext, htok, h2, Client.classify, Client.onFailure]
    simp [s2]
  · simp only [Client.GetIllustDetail, GetIllustDetailParams.validate, hi, htok, h3,
      Client.classify, Client.onFailure]
    simp [s3]

/-- Witness for C7: all three endpoints against a constant 404 JSON
responder. -/
theorem C7_api_error_on_non200_witness :
    (clientFix.GetIllustRanking dayParams (fun _ => res404)).1 =
      .error (.errAPI { statusCode := res404.statusCode, status := res404.status,
                        JSON := if containsSub res404.contentType "application/json" then
                          res404.body else "" }) ∧
    (clientFix.GetIllustRankingNext "https://api.example/next" (fun _ => res404)).1 =
      .error (.errAPI { statusCode := res404.statusCode, status := res404.status,
                        JSON := if containsSub res404.contentType "application/json" then
                          res404.body else "" }) ∧
    (clientFix.GetIllustDetail detailParams (fun _ => res404)).1 =
      .error (.errAPI { statusCode := res404.statusCode, status := res404.status,
                        JSON := if containsSub res404.contentType "application/json" then
                          res404.body else "" }) ∧
    ((ErrAPI.Decode err404fix).1).error.userMessage =
      "指定されたエンドポイントは存在しません" := by
  have h := C7_api_error_on_non200 clientFix "TOK" (fun _ => res404)
    dayParams "day" "https://api.example/next" detailParams 62397682
    res404 res404 res404 rfl rfl rfl rfl rfl rfl
    (by decide) (by decide) (by decide)
  exact ⟨h.1, h.2.1, h.2.2.1, h.2.2.2.1⟩

/-- C8: when a resource endpoint answers with status 200 but a
`Content-Type` that does not contain `application/json`, the client returns
the content-type mismatch error naming the actual header value — for every
body, so the body is never decoded into the response schema. -/
theorem C8_content_type_mismatch_on_200
    (c : Client) (tok : String) (respond : Request → Response)
    (pr : GetIllustRankingParams) (m : String) (nextURL : String)
    (pd : GetIllustDetailParams) (i : Int)
    (res1 res2 res3 : Response)
    (htok : c.tokenResult = .ok tok)
    (hm : pr.mode = some m)
    (hi : pd.illustID = some i)
    (h1 : respond (c.sentRequest tok
      { method := "GET", url := c.baseURL ++ "/v1/illust/ranking?" ++ pr.buildQuery,
        contentType := "", form := [], headers := [] }) = res1)
    (h2 : respond (c.sentRequest tok
      { method := "GET", url := nextURL,
        contentType := "", form := [], headers := [] }) = res2)
    (h3 : respond (c.sentRequest tok
      { method := "GET", url := c.baseURL ++ "/v1/illust/detail?" ++ pd.buildQuery,
        contentType := "", form := [], headers := [] }) = res3)
    (s1 : res1.statusCode = 200) (s2 : res2.statusCode = 200) (s3 : res3.statusCode = 200)
    (n1 : containsSub res1.contentType "application/json" = false)
    (n2 : containsSub res2.contentType "application/json" = false)
    (n3 : containsSub res3.contentType "application/json" = false) :
    (c.GetIllustRanking pr respond).1 = .error (.contentTypeMismatch res1.contentType) ∧
    (c.GetIllustRankingNext nextURL respond).1 = .error (.contentTypeMismatch res2.contentType) ∧
    (c.GetIllustDetail pd respond).1 = .error (.contentTypeMismatch res3.contentType) := by
  refine ⟨?_, ?_, ?_⟩
  · simp only [Client.GetIllustRanking, GetIllustRankingParams.validate, hm, htok, h1,
      Client.classify]
    simp [s1, n1]
  · simp only [Client.GetIllustRankingNext, htok, h2, Client.classify]
    simp [s2, n2]
  · simp only [Client.GetIllustDetail, GetIllustDetailParams.validate, hi, htok, h3,
      Client.classify]
    simp [s3, n3]

/-- Witness for C8: a 200 `text/html` responder with a non-JSON body. -/
theorem C8_content_type_mismatch_on_200_witness :
    (clientFix.GetIllustRanking dayParams (fun _ =>
      { statusCode := 200, status := "200 OK", contentType := "text/html",
        body := "<html></html>" })).1 =
      .error (.contentTypeMismatch "text/html") ∧
    (clientFix.GetIllustRankingNext "https://api.example/next" (fun _ =>
      { statusCode := 200, status := "200 OK", contentType := "text/html",
        body := "<html></html>" })).1 =
      .error (.contentTypeMismatch "text/html") ∧
    (clientFix.GetIllustDetail detailParams (fun _ =>
      { statusCode := 200, status := "200 OK", contentType := "text/html",
        body := "<html></html>" })).1 =
      .error (.contentTypeMismatch "text/html") :=
  C8_content_type_mismatch_on_200 clientFix "TOK"
    (fun _ => { statusCode := 200, status := "200 OK", contentType := "text/html",
                body := "<html></html>" })
    dayParams "day" "https://api.example/next" detailParams 62397682
    { statusCode := 200, status := "200 OK", contentType := "text/html", body := "<html></html>" }
    { statusCode := 200, status := "200 OK", contentType := "text/html", body := "<html></html>" }
    { statusCode := 200, status := "200 OK", contentType := "text/html", body := "<html></html>" }
    rfl rfl rfl rfl rfl rfl rfl rfl rfl (by decide) (by decide) (by decide)

/-- Witness for C10 at concrete empty-body errors. -/
theorem C10_empty_json_decode_error_witness :
    ErrToken.TokenErrorBody { statusCode := 500, status := "500 Internal Server Error", JSON := "" } =
      ({ hasError := false, errors := [] }, some "no JSON contents") ∧
    ErrAPI.Decode { statusCode := 500, status := "500 Internal Server Error", JSON := "" } =
      ({ error := { userMessage := "", message := "", reason := "",
                    userMessageDetails := [] } }, some "no JSON contents") :=
  C10_empty_json_decode_error
    { statusCode := 500, status := "500 Internal Server Error", JSON := "" }
    { statusCode := 500, status := "500 Internal Server Error", JSON := "" } rfl rfl

end Pixiv
